import Mathlib

/-!
Verification of the shape-XML object model in `pptx/oxml/autoshape.py`
(and the placeholder lookup of `pptx/parts/slidelayout.py`).

XML element trees are shallowly embedded as `Elem`: a tag (namespace-qualified
name such as `"a:solidFill"`), an ordered attribute list, and an ordered child
list.  lxml node operations used by the source map as follows:

* `find(qn(tag))` / `pptx.oxml.core.child(e, tag)` — first direct child with
  the given tag (`findChild`);
* objectify attribute access (`self.avLst`, `self.spPr`, ...) — same lookup,
  but raising `AttributeError` when absent; fallible accessors therefore
  return `Option`;
* `element.get(name)` — attribute lookup (`getAttr`);
* `parent.remove(childElm)` where `childElm` was obtained by `find` — removal
  of the first child with that tag (`List.eraseP`);
* `successor.addprevious(new)` — insertion immediately before `successor` in
  the parent's child list (`insertAt` at the successor's index);
* `SubElement(parent, tag)` / `parent.append(new)` — appending a child.
-/

inductive Elem : Type where
  | mk (tag : String) (attrs : List (String × String)) (children : List Elem)

def Elem.tag : Elem → String
  | .mk t _ _ => t

def Elem.attrs : Elem → List (String × String)
  | .mk _ a _ => a

def Elem.children : Elem → List Elem
  | .mk _ _ c => c

/-- First direct child carrying the given tag (lxml `find` on a qualified
tag, and `pptx.oxml.core.child`). -/
def findChild (tag : String) (e : Elem) : Option Elem :=
  e.children.find? (fun c => c.tag == tag)

/-- Attribute lookup, lxml `element.get(name)`: value of the first attribute
with the given name, or `none` when absent. -/
def getAttr (name : String) (e : Elem) : Option String :=
  (e.attrs.find? (fun a => a.1 == name)).map (·.2)

/-- Insertion as `l.take i ++ x :: l.drop i`: insertion before the child at index `i`,
which is what lxml `addprevious` does when `i` is the successor's index. -/
def insertAt (l : List Elem) (i : Nat) (x : Elem) : List Elem :=
  l.take i ++ x :: l.drop i

/-! ## `CT_ShapeProperties` (`<p:spPr>`) -/

/-- The fill tags other than `a:solidFill` that
`get_or_change_to_solidFill` removes. -/
def otherFillTags : List String :=
  ["a:noFill", "a:gradFill", "a:blipFill", "a:pattFill", "a:grpFill"]

/-- All six fill-type tags of the spPr content model. -/
def allFillTags : List String :=
  "a:solidFill" :: otherFillTags

/-- The tags `_add_solidFill` treats as successors of the fill element, in
the order the source lists them. -/
def successorTags : List String :=
  ["a:ln", "a:effectLst", "a:effectDag", "a:scene3d", "a:sp3d", "a:extLst"]

def isOtherFill (c : Elem) : Bool :=
  otherFillTags.contains c.tag

def isFill (c : Elem) : Bool :=
  allFillTags.contains c.tag

/-- Source `CT_ShapeProperties.solidFill`: the `<a:solidFill>` child, or `None`. -/
def solidFill_prop (e : Elem) : Option Elem :=
  findChild "a:solidFill" e

/-- Source `CT_ShapeProperties._remove_if_present`: for each tag in turn, `find` the
first child with that tag and, when present, remove that child. -/
def remove_if_present (e : Elem) (tagnames : List String) : Elem :=
  tagnames.foldl
    (fun acc tagname =>
      Elem.mk acc.tag acc.attrs (acc.children.eraseP (fun c => c.tag == tagname)))
    e

/-- Source `CT_ShapeProperties._first_successor_in`: index of the first child whose
tag is the first tag of `tagnames` present among the children (the source
returns the node; insertion by `addprevious` makes its index the insertion
point). -/
def first_successor_in (children : List Elem) : List String → Option Nat
  | [] => none
  | t :: ts =>
    match children.findIdx? (fun c => c.tag == t) with
    | some i => some i
    | none => first_successor_in children ts

/-- The fresh, empty `<a:solidFill>` element built by `Element` applied to the solidFill tag. -/
def newSolidFill : Elem :=
  Elem.mk "a:solidFill" [] []

/-- Source `CT_ShapeProperties._add_solidFill`: insert a new empty solidFill before
the first successor element, or append it; return the mutated spPr together
with the inserted element. -/
def add_solidFill (e : Elem) : Elem × Elem :=
  match first_successor_in e.children successorTags with
  | some i => (Elem.mk e.tag e.attrs (insertAt e.children i newSolidFill), newSolidFill)
  | none => (Elem.mk e.tag e.attrs (e.children ++ [newSolidFill]), newSolidFill)

/-- Source `CT_ShapeProperties.get_or_change_to_solidFill`: return the existing
solidFill unchanged, else remove any other fill element and add a solidFill
in the right sequence.  The pair is (spPr after the call, returned element). -/
def get_or_change_to_solidFill (e : Elem) : Elem × Elem :=
  match solidFill_prop e with
  | some sf => (e, sf)
  | none => add_solidFill (remove_if_present e otherFillTags)

/-- The spec's description of the mutation performed on a subtree with no
solid fill: drop the other-fill elements, then place a new empty solid-fill
element immediately before the first of line, effect-list, effect-graph,
scene-3D, shape-3D, extension-list that is present, or append it last. -/
def spec_coerce_children (children : List Elem) : List Elem :=
  let kept := children.filter (fun c => !isOtherFill c)
  match successorTags.findSome? (fun t => kept.findIdx? (fun c => c.tag == t)) with
  | some i => kept.take i ++ newSolidFill :: kept.drop i
  | none => kept ++ [newSolidFill]

/-! ## `CT_PresetGeometry2D` (`<a:prstGeom>`) -/

/-- Predicate for `<a:gd>` children. -/
def isGd (c : Elem) : Bool :=
  c.tag == "a:gd"

/-- Source `CT_PresetGeometry2D.gd`: the `gd` element children of the first
`<a:avLst>` child; the `AttributeError` paths (no `avLst`, or an `avLst`
with no `gd` child) both yield the empty tuple. -/
def gd_prop (e : Elem) : List Elem :=
  match findChild "a:avLst" e with
  | none => []
  | some avLst => avLst.children.filter isGd

/-- Source `CT_PresetGeometry2D.prst`: value of the required `prst` attribute. -/
def prst_prop (e : Elem) : Option String :=
  getAttr "prst" e

/-- One `<a:gd>` element as `rewrite_guides` serializes a (name, val) pair:
`gd.set of name, and of fmla as "val " followed by the decimal value`. -/
def serial_gd (g : String × Int) : Elem :=
  Elem.mk "a:gd" [("name", g.1), ("fmla", "val " ++ toString g.2)] []

/-- Rewrite the first child satisfying `p` with `f`, leaving the rest alone. -/
def replaceFirst (p : Elem → Bool) (f : Elem → Elem) : List Elem → List Elem
  | [] => []
  | c :: cs => if p c then f c :: cs else c :: replaceFirst p f cs

/-- What `rewrite_guides` does to the `<a:avLst>` it operates on: remove every
`gd` child, then append one serialized `gd` per guide. -/
def rewriteAvLst (guides : List (String × Int)) (avLst : Elem) : Elem :=
  Elem.mk avLst.tag avLst.attrs
    (avLst.children.filter (fun c => !isGd c) ++ guides.map serial_gd)

/-- Source `CT_PresetGeometry2D.rewrite_guides`: when an `<a:avLst>` child exists
(the objectify access succeeds), remove the `gd` children of the first one
and append the new serialized guides to it; otherwise append a fresh
`<a:avLst>` (`SubElement`) holding exactly the serialized guides. -/
def rewrite_guides (e : Elem) (guides : List (String × Int)) : Elem :=
  match findChild "a:avLst" e with
  | some _ => Elem.mk e.tag e.attrs (replaceFirst (fun c => c.tag == "a:avLst") (rewriteAvLst guides) e.children)
  | none => Elem.mk e.tag e.attrs (e.children ++ [Elem.mk "a:avLst" [] (guides.map serial_gd)])

/-! ## `CT_Shape` (`<p:sp>`) -/

/-- Source `CT_Shape.is_textbox`: the `txBox` attribute of `nvSpPr/cNvSpPr` tested
against the exact strings "true" and "1"; `none` models the
`AttributeError` raised when the `nvSpPr` or `cNvSpPr` access fails. -/
def is_textbox (sp : Elem) : Option Bool :=
  match findChild "p:nvSpPr" sp with
  | none => none
  | some nvSpPr =>
    match findChild "p:cNvSpPr" nvSpPr with
    | none => none
    | some cNvSpPr =>
      let txBox := getAttr "txBox" cNvSpPr
      some (txBox == some "true" || txBox == some "1")

/-- Source `CT_Shape.is_autoshape`: `False` as soon as `spPr` has no `a:prstGeom`
child; otherwise the negation of the textbox-flag test.  The `txBox` lookup
runs only in the second case, exactly as in the source. -/
def is_autoshape (sp : Elem) : Option Bool :=
  match findChild "p:spPr" sp with
  | none => none
  | some spPr =>
    match findChild "a:prstGeom" spPr with
    | none => some false
    | some _ =>
      match findChild "p:nvSpPr" sp with
      | none => none
      | some nvSpPr =>
        match findChild "p:cNvSpPr" nvSpPr with
        | none => none
        | some cNvSpPr =>
          let txBox := getAttr "txBox" cNvSpPr
          some (!(txBox == some "true" || txBox == some "1"))

/-- Source `CT_Shape.prst`: `None` when `spPr` has no `a:prstGeom` child, else that
child's `prst` attribute; the outer `Option` models the objectify access to
`spPr` itself. -/
def shape_prst (sp : Elem) : Option (Option String) :=
  match findChild "p:spPr" sp with
  | none => none
  | some spPr =>
    match findChild "a:prstGeom" spPr with
    | none => some none
    | some prstGeom => some (prst_prop prstGeom)

/-- Modelled from the spec: `PH_TYPE_OBJ` from `pptx/spec.py` (not under
src/), the placeholder-type constant for the default "object" type. -/
def PH_TYPE_OBJ : String := "obj"

/-- Modelled from the spec: `PH_TYPE_TITLE` from `pptx/spec.py`. -/
def PH_TYPE_TITLE : String := "title"

/-- Modelled from the spec: `PH_TYPE_CTRTITLE` (centered title) from
`pptx/spec.py`. -/
def PH_TYPE_CTRTITLE : String := "ctrTitle"

/-- Modelled from the spec: `PH_TYPE_SUBTITLE` from `pptx/spec.py`. -/
def PH_TYPE_SUBTITLE : String := "subTitle"

/-- Modelled from the spec: `PH_TYPE_BODY` from `pptx/spec.py`. -/
def PH_TYPE_BODY : String := "body"

/-- Modelled from the spec: `PH_ORIENT_HORZ` from `pptx/spec.py`, the
default horizontal orientation. -/
def PH_ORIENT_HORZ : String := "horz"

/-- Modelled from the spec: `PH_SZ_FULL` from `pptx/spec.py`, the default
full size. -/
def PH_SZ_FULL : String := "full"

/-- Modelled from the spec: `CT_TextBody.new_txBody` from
`pptx/oxml/text.py` (not under src/) — an empty text body holding one empty
paragraph and no run. -/
def new_txBody : Elem :=
  Elem.mk "p:txBody" []
    [Elem.mk "a:bodyPr" [] [], Elem.mk "a:lstStyle" [] [], Elem.mk "a:p" [] []]

/-- The source's tuple `placeholder_types_that_have_a_text_frame`. -/
def phTypesWithTextFrame : List String :=
  [PH_TYPE_TITLE, PH_TYPE_CTRTITLE, PH_TYPE_SUBTITLE, PH_TYPE_BODY, PH_TYPE_OBJ]

/-- The attributes `new_placeholder_sp` sets on the `<p:ph>` element: each is
emitted only when it differs from its default. -/
def ph_attrs (ph_type orient sz : String) (idx : Nat) : List (String × String) :=
  (if ph_type == PH_TYPE_OBJ then [] else [("type", ph_type)])
    ++ (if orient == PH_ORIENT_HORZ then [] else [("orient", orient)])
    ++ (if sz == PH_SZ_FULL then [] else [("sz", sz)])
    ++ (if idx == 0 then [] else [("idx", toString idx)])

/-- Source `CT_Shape.new_placeholder_sp`: the `_ph_sp_tmpl` parse result
(`p:sp > (p:nvSpPr > (p:cNvPr, p:cNvSpPr, p:nvPr), p:spPr)`) after the three
mutations the source performs on it: a `a:spLocks[noGrp=1]` appended under
`cNvSpPr`, a `p:ph` with sparse attributes appended under `nvPr`, and a text
body appended to the `sp` when the placeholder type is a text-bearing one. -/
def new_placeholder_sp (id_ : Nat) (name ph_type orient sz : String) (idx : Nat) : Elem :=
  Elem.mk "p:sp" []
    ([Elem.mk "p:nvSpPr" []
        [Elem.mk "p:cNvPr" [("id", toString id_), ("name", name)] [],
         Elem.mk "p:cNvSpPr" [] [Elem.mk "a:spLocks" [("noGrp", "1")] []],
         Elem.mk "p:nvPr" [] [Elem.mk "p:ph" (ph_attrs ph_type orient sz idx) []]],
      Elem.mk "p:spPr" [] []]
      ++ (if phTypesWithTextFrame.contains ph_type then [new_txBody] else []))

/-- Lookup of the `<p:ph>` element of a placeholder shape subtree, reached the way the
source reaches it (`sp.nvSpPr.nvPr` then the `p:ph` child). -/
def ph_of_sp (sp : Elem) : Option Elem :=
  match findChild "p:nvSpPr" sp with
  | none => none
  | some nvSpPr =>
    match findChild "p:nvPr" nvSpPr with
    | none => none
    | some nvPr => findChild "p:ph" nvPr

/-! ## `_LayoutPlaceholders` (`pptx/parts/slidelayout.py`) -/

/-- A placeholder as the inheritance resolver sees it: its (optional) index
attribute. -/
structure LayoutPlaceholder where
  idxAttr : Option Nat
  deriving DecidableEq

/-- Modelled from the spec: a placeholder's resolved index — an absent index
attribute counts as zero. -/
def LayoutPlaceholder.idx (ph : LayoutPlaceholder) : Nat :=
  ph.idxAttr.getD 0

/-- Modelled from the spec: `_LayoutPlaceholders.get(idx, default)` from
`pptx/parts/slidelayout.py` (not under src/) — scan the placeholders in the
sequence order of the collection, return the first whose resolved index
equals the requested one, or the supplied default when none matches. -/
def placeholders_get (phs : List LayoutPlaceholder) (idx : Nat)
    (default : Option LayoutPlaceholder) : Option LayoutPlaceholder :=
  match phs with
  | [] => default
  | ph :: rest => if ph.idx = idx then some ph else placeholders_get rest idx default

/-- Child-list view of the fold performed by `_remove_if_present`. -/
def eraseTags (tags : List String) (l : List Elem) : List Elem :=
  tags.foldl (fun acc t => acc.eraseP (fun c => c.tag == t)) l

/-! ## Helper lemmas: removal of fill elements -/

lemma remove_if_present_eq (tags : List String) (e : Elem) :
    remove_if_present e tags = Elem.mk e.tag e.attrs (eraseTags tags e.children) := by
  induction tags generalizing e with
  | nil => cases e; rfl
  | cons t ts ih =>
    have h := ih (Elem.mk e.tag e.attrs (e.children.eraseP (fun c => c.tag == t)))
    simpa [remove_if_present, eraseTags] using h

lemma eraseTags_sublist (tags : List String) (l : List Elem) :
    (eraseTags tags l).Sublist l := by
  induction tags generalizing l with
  | nil => exact List.Sublist.refl l
  | cons t ts ih =>
    exact (ih (l.eraseP (fun c => c.tag == t))).trans (List.eraseP_sublist l)

lemma eraseTags_of_no_match (tags : List String) (l : List Elem)
    (h : ∀ x ∈ l, ∀ t ∈ tags, (x.tag == t) = false) :
    eraseTags tags l = l := by
  induction tags with
  | nil => rfl
  | cons t ts ih =>
    have h1 : l.eraseP (fun c => c.tag == t) = l :=
      List.eraseP_of_forall_not (fun x hx => by simp [h x hx t (by simp)])
    show eraseTags ts (l.eraseP (fun c => c.tag == t)) = l
    rw [h1]
    exact ih (fun x hx t' ht' => h x hx t' (by simp [ht']))

lemma eraseTags_cons_of_no_match_head (tags : List String) (c : Elem) (cs : List Elem)
    (h : ∀ t ∈ tags, (c.tag == t) = false) :
    eraseTags tags (c :: cs) = c :: eraseTags tags cs := by
  induction tags generalizing cs with
  | nil => rfl
  | cons t ts ih =>
    show eraseTags ts ((c :: cs).eraseP (fun x => x.tag == t)) = _
    rw [List.eraseP_cons_of_neg (by simp [h t (by simp)])]
    exact ih _ (fun t' ht' => h t' (by simp [ht']))

lemma eraseTags_cons_of_match (tags : List String) (c : Elem) (cs : List Elem)
    (hc : ∃ t ∈ tags, c.tag = t)
    (hcs : ∀ x ∈ cs, ∀ t ∈ tags, (x.tag == t) = false) :
    eraseTags tags (c :: cs) = cs := by
  induction tags with
  | nil => obtain ⟨t, ht, _⟩ := hc; exact absurd ht (by simp)
  | cons t ts ih =>
    show eraseTags ts ((c :: cs).eraseP (fun x => x.tag == t)) = cs
    by_cases hct : c.tag = t
    · rw [List.eraseP_cons_of_pos (by simp [hct])]
      exact eraseTags_of_no_match ts cs (fun x hx t' ht' => hcs x hx t' (by simp [ht']))
    · rw [List.eraseP_cons_of_neg (by simp [hct]),
        List.eraseP_of_forall_not (fun x hx => by simp [hcs x hx t (by simp)])]
      refine ih ?_ (fun x hx t' ht' => hcs x hx t' (by simp [ht']))
      obtain ⟨t', ht', hct'⟩ := hc
      rcases List.mem_cons.mp ht' with h' | h'
      · exact absurd (h' ▸ hct') hct
      · exact ⟨t', h', hct'⟩

lemma isOtherFill_iff (c : Elem) : isOtherFill c = true ↔ c.tag ∈ otherFillTags := by
  simp [isOtherFill, List.contains]

lemma isFill_iff (c : Elem) : isFill c = true ↔ c.tag ∈ allFillTags := by
  simp [isFill, List.contains]

lemma eraseTags_eq_filter (l : List Elem) (h : l.countP isOtherFill ≤ 1) :
    eraseTags otherFillTags l = l.filter (fun c => !isOtherFill c) := by
  induction l with
  | nil => rfl
  | cons c cs ih =>
    by_cases hc : isOtherFill c = true
    · have h0 : cs.countP isOtherFill = 0 := by
        have := List.countP_cons isOtherFill c cs
        rw [if_pos hc] at this
        omega
      have hclean : ∀ x ∈ cs, ∀ t ∈ otherFillTags, (x.tag == t) = false := by
        intro x hx t ht
        have hnx : ¬ isOtherFill x = true := List.countP_eq_zero.mp h0 x hx
        rw [beq_eq_false_iff_ne]
        intro hxt
        exact hnx ((isOtherFill_iff x).mpr (hxt ▸ ht))
      rw [eraseTags_cons_of_match otherFillTags c cs ⟨c.tag, (isOtherFill_iff c).mp hc, rfl⟩ hclean,
        List.filter_cons_of_neg (by simp [hc]),
        List.filter_eq_self.mpr (fun x hx => by simp [List.countP_eq_zero.mp h0 x hx])]
    · have hhead : ∀ t ∈ otherFillTags, (c.tag == t) = false := by
        intro t ht
        rw [beq_eq_false_iff_ne]
        intro hxt
        exact hc ((isOtherFill_iff c).mpr (hxt ▸ ht))
      have h' : cs.countP isOtherFill ≤ 1 := by
        have := List.countP_cons isOtherFill c cs
        rw [if_neg hc] at this
        omega
      rw [eraseTags_cons_of_no_match_head otherFillTags c cs hhead,
        List.filter_cons_of_pos (by simp [hc]), ih h']

lemma first_successor_in_eq_findSome (children : List Elem) (ts : List String) :
    first_successor_in children ts =
      ts.findSome? (fun t => children.findIdx? (fun c => c.tag == t)) := by
  induction ts with
  | nil => rfl
  | cons t ts ih =>
    rw [first_successor_in, List.findSome?_cons]
    cases children.findIdx? (fun c => c.tag == t) with
    | some i => rfl
    | none => exact ih

lemma solidFill_prop_none_iff (e : Elem) :
    solidFill_prop e = none ↔ ∀ c ∈ e.children, (c.tag == "a:solidFill") = false := by
  rw [solidFill_prop, findChild, List.find?_eq_none]
  constructor
  · intro h c hc
    simpa using h c hc
  · intro h c hc
    simp [h c hc]

lemma add_solidFill_found (e : Elem)
    (h : ∀ c ∈ e.children, (c.tag == "a:solidFill") = false) :
    solidFill_prop (add_solidFill e).1 = some newSolidFill := by
  rw [add_solidFill]
  cases hm : first_successor_in e.children successorTags with
  | some i =>
    show findChild "a:solidFill" (Elem.mk e.tag e.attrs (insertAt e.children i newSolidFill)) = _
    rw [findChild]
    show (e.children.take i ++ newSolidFill :: e.children.drop i).find? _ = _
    rw [List.find?_append,
      List.find?_eq_none.mpr (fun x hx => by simp [h x (List.take_subset i e.children hx)])]
    simp [newSolidFill, Elem.tag]
  | none =>
    show findChild "a:solidFill" (Elem.mk e.tag e.attrs (e.children ++ [newSolidFill])) = _
    rw [findChild]
    show (e.children ++ [newSolidFill]).find? _ = _
    rw [List.find?_append, List.find?_eq_none.mpr (fun x hx => by simp [h x hx])]
    simp [newSolidFill, Elem.tag]

lemma add_solidFill_snd (e : Elem) : (add_solidFill e).2 = newSolidFill := by
  rw [add_solidFill]
  cases first_successor_in e.children successorTags <;> rfl

/-! ## C1: schema-correct solid-fill coercion on a fill-less subtree -/

/-- C1: on a shape-properties subtree with no solid-fill child and (per the
documented invariant) at most one other fill-type element,
`get_or_change_to_solidFill` leaves the tag and attributes alone, removes the
present fill element and inserts a new empty solid fill immediately before
the first present successor element (line, effect-list, effect-graph,
scene-3D, shape-3D, extension-list) or appends it last — exactly
`spec_coerce_children` — and returns the inserted element. -/
theorem coerce_to_solidFill_inserts_at_schema_position (e : Elem)
    (hno : solidFill_prop e = none)
    (hinv : e.children.countP isOtherFill ≤ 1) :
    (get_or_change_to_solidFill e).1.tag = e.tag ∧
    (get_or_change_to_solidFill e).1.attrs = e.attrs ∧
    (get_or_change_to_solidFill e).1.children = spec_coerce_children e.children ∧
    (get_or_change_to_solidFill e).2 = newSolidFill := by
  have hkept : eraseTags otherFillTags e.children =
      e.children.filter (fun c => !isOtherFill c) := eraseTags_eq_filter e.children hinv
  rw [get_or_change_to_solidFill, hno, remove_if_present_eq, add_solidFill]
  rw [show (Elem.mk e.tag e.attrs (eraseTags otherFillTags e.children)).children =
      eraseTags otherFillTags e.children from rfl, hkept,
    first_successor_in_eq_findSome, spec_coerce_children]
  cases successorTags.findSome?
      (fun t => (e.children.filter (fun c => !isOtherFill c)).findIdx? (fun c => c.tag == t)) with
  | some i => exact ⟨rfl, rfl, rfl, rfl⟩
  | none => exact ⟨rfl, rfl, rfl, rfl⟩

/-- Witness for C1 at a concrete subtree holding a gradient fill and a line. -/
theorem coerce_to_solidFill_inserts_at_schema_position_witness :
    (get_or_change_to_solidFill (Elem.mk "p:spPr" []
        [Elem.mk "a:gradFill" [] [], Elem.mk "a:ln" [] []])).1.tag = "p:spPr" ∧
    (get_or_change_to_solidFill (Elem.mk "p:spPr" []
        [Elem.mk "a:gradFill" [] [], Elem.mk "a:ln" [] []])).1.attrs = [] ∧
    (get_or_change_to_solidFill (Elem.mk "p:spPr" []
        [Elem.mk "a:gradFill" [] [], Elem.mk "a:ln" [] []])).1.children =
      spec_coerce_children [Elem.mk "a:gradFill" [] [], Elem.mk "a:ln" [] []] ∧
    (get_or_change_to_solidFill (Elem.mk "p:spPr" []
        [Elem.mk "a:gradFill" [] [], Elem.mk "a:ln" [] []])).2 = newSolidFill :=
  coerce_to_solidFill_inserts_at_schema_position
    (Elem.mk "p:spPr" [] [Elem.mk "a:gradFill" [] [], Elem.mk "a:ln" [] []])
    rfl (by decide)

/-! ## C2: idempotence of the solid-fill coercion -/

/-- C2: `get_or_change_to_solidFill` is idempotent — a second call returns
the same element and leaves the subtree of the first call unchanged — and
when a solid fill already exists the call returns it with the subtree
untouched. -/
theorem coerce_to_solidFill_idempotent (e : Elem) :
    get_or_change_to_solidFill (get_or_change_to_solidFill e).1 =
      get_or_change_to_solidFill e ∧
    (∀ sf, solidFill_prop e = some sf → get_or_change_to_solidFill e = (e, sf)) := by
  constructor
  · cases h : solidFill_prop e with
    | some sf =>
      have he : get_or_change_to_solidFill e = (e, sf) := by
        rw [get_or_change_to_solidFill, h]
      rw [he]
      exact he
    | none =>
      have hmem : ∀ c ∈ e.children, (c.tag == "a:solidFill") = false :=
        (solidFill_prop_none_iff e).mp h
      have hmem' : ∀ c ∈ (remove_if_present e otherFillTags).children,
          (c.tag == "a:solidFill") = false := by
        intro c hc
        rw [remove_if_present_eq] at hc
        exact hmem c ((eraseTags_sublist otherFillTags e.children).subset hc)
      have he : get_or_change_to_solidFill e =
          add_solidFill (remove_if_present e otherFillTags) := by
        rw [get_or_change_to_solidFill, h]
      rw [he, get_or_change_to_solidFill,
        add_solidFill_found (remove_if_present e otherFillTags) hmem']
      exact Prod.ext rfl (add_solidFill_snd (remove_if_present e otherFillTags)).symm
  · intro sf h
    rw [get_or_change_to_solidFill, h]

/-- Witness for C2 at a subtree that already carries a solid fill with a
color child: the call returns it and preserves the subtree. -/
theorem coerce_to_solidFill_idempotent_witness :
    get_or_change_to_solidFill
        (get_or_change_to_solidFill (Elem.mk "p:spPr" []
          [Elem.mk "a:solidFill" [] [Elem.mk "a:srgbClr" [("val", "FF0000")] []]])).1 =
      get_or_change_to_solidFill (Elem.mk "p:spPr" []
        [Elem.mk "a:solidFill" [] [Elem.mk "a:srgbClr" [("val", "FF0000")] []]]) ∧
    get_or_change_to_solidFill (Elem.mk "p:spPr" []
        [Elem.mk "a:solidFill" [] [Elem.mk "a:srgbClr" [("val", "FF0000")] []]]) =
      (Elem.mk "p:spPr" []
        [Elem.mk "a:solidFill" [] [Elem.mk "a:srgbClr" [("val", "FF0000")] []]],
       Elem.mk "a:solidFill" [] [Elem.mk "a:srgbClr" [("val", "FF0000")] []]) :=
  ⟨(coerce_to_solidFill_idempotent (Elem.mk "p:spPr" []
      [Elem.mk "a:solidFill" [] [Elem.mk "a:srgbClr" [("val", "FF0000")] []]])).1,
   (coerce_to_solidFill_idempotent (Elem.mk "p:spPr" []
      [Elem.mk "a:solidFill" [] [Elem.mk "a:srgbClr" [("val", "FF0000")] []]])).2
     (Elem.mk "a:solidFill" [] [Elem.mk "a:srgbClr" [("val", "FF0000")] []]) rfl⟩

/-! ## C4: the at-most-one-fill invariant -/

/-- C4 counterexample: on a malformed subtree holding two gradient-fill
children, the coercion leaves two fill-type elements (the surviving
duplicate gradient fill plus the inserted solid fill), refuting the claim
for malformed inputs. -/
theorem coerce_to_solidFill_duplicate_fills_counterexample :
    ¬ ((get_or_change_to_solidFill (Elem.mk "p:spPr" []
        [Elem.mk "a:gradFill" [] [], Elem.mk "a:gradFill" [] []])).1.children.countP
          isFill ≤ 1) := by
  decide

/-- C4 amended: on every shape-properties subtree satisfying the documented
invariant (at most one fill-type element present), at most one fill-type
element is present after the coercion. -/
theorem coerce_to_solidFill_preserves_fill_invariant (e : Elem)
    (h : e.children.countP isFill ≤ 1) :
    (get_or_change_to_solidFill e).1.children.countP isFill ≤ 1 := by
  cases hsf : solidFill_prop e with
  | some sf =>
    rw [get_or_change_to_solidFill, hsf]
    exact h
  | none =>
    have hnos : ∀ c ∈ e.children, (c.tag == "a:solidFill") = false :=
      (solidFill_prop_none_iff e).mp hsf
    have hcongr : e.children.countP isFill = e.children.countP isOtherFill := by
      refine List.countP_congr (fun x hx => ?_)
      rw [isFill_iff, isOtherFill_iff, allFillTags, List.mem_cons]
      have : x.tag ≠ "a:solidFill" := by simpa using hnos x hx
      tauto
    have hinv : e.children.countP isOtherFill ≤ 1 := hcongr ▸ h
    have hkept : eraseTags otherFillTags e.children =
        e.children.filter (fun c => !isOtherFill c) := eraseTags_eq_filter e.children hinv
    have hkept0 : (eraseTags otherFillTags e.children).countP isFill = 0 := by
      rw [hkept, List.countP_filter, List.countP_eq_zero]
      intro x hx
      simp only [Bool.and_eq_true, Bool.not_eq_true']
      rintro ⟨hf, hof⟩
      rcases List.mem_cons.mp ((isFill_iff x).mp hf) with h' | h'
      · simpa [h'] using hnos x hx
      · simp [(isOtherFill_iff x).mpr h'] at hof
    rw [get_or_change_to_solidFill, hsf, remove_if_present_eq, add_solidFill]
    cases first_successor_in (Elem.mk e.tag e.attrs
        (eraseTags otherFillTags e.children)).children successorTags with
    | some i =>
      show ((insertAt (eraseTags otherFillTags e.children) i newSolidFill).countP isFill) ≤ 1
      rw [insertAt, List.countP_append, List.countP_cons]
      have hsum := List.countP_append isFill ((eraseTags otherFillTags e.children).take i)
        ((eraseTags otherFillTags e.children).drop i)
      rw [List.take_append_drop, hkept0] at hsum
      have hfillsf : isFill newSolidFill = true := by decide
      rw [hfillsf, if_pos rfl]
      omega
    | none =>
      show (((eraseTags otherFillTags e.children) ++ [newSolidFill]).countP isFill) ≤ 1
      rw [List.countP_append, hkept0]
      simp [List.countP_cons, newSolidFill]
      decide

/-- Witness for the amended C4 at a subtree holding a single no-fill child. -/
theorem coerce_to_solidFill_preserves_fill_invariant_witness :
    (get_or_change_to_solidFill (Elem.mk "p:spPr" []
        [Elem.mk "a:noFill" [] []])).1.children.countP isFill ≤ 1 :=
  coerce_to_solidFill_preserves_fill_invariant
    (Elem.mk "p:spPr" [] [Elem.mk "a:noFill" [] []]) (by decide)

/-! ## Helper lemmas: guide-list rewriting -/

lemma find?_replaceFirst (p : Elem → Bool) (f : Elem → Elem)
    (hf : ∀ x, p x = true → p (f x) = true) :
    ∀ (l : List Elem) (a : Elem), l.find? p = some a →
      (replaceFirst p f l).find? p = some (f a) := by
  intro l
  induction l with
  | nil => intro a h; simp at h
  | cons c cs ih =>
    intro a h
    cases hp : p c with
    | true =>
      rw [List.find?_cons, hp] at h
      cases h
      rw [replaceFirst, if_pos hp, List.find?_cons, hf c hp]
    | false =>
      rw [List.find?_cons, hp] at h
      rw [replaceFirst, if_neg (by simp [hp]), List.find?_cons, hp]
      exact ih a h

lemma rewriteAvLst_tag (g : List (String × Int)) (x : Elem) :
    (rewriteAvLst g x).tag = x.tag := rfl

/-- After any `rewrite_guides e g`, the first `<a:avLst>` child exists, its
children end in exactly the serialized guides, and everything before them is
a non-`gd` residue. -/
lemma rewrite_guides_state (e : Elem) (g : List (String × Int)) :
    ∃ attrs X, findChild "a:avLst" (rewrite_guides e g) =
        some (Elem.mk "a:avLst" attrs (X ++ g.map serial_gd)) ∧
      ∀ x ∈ X, isGd x = false := by
  cases hf : findChild "a:avLst" e with
  | some a =>
    have hfind : e.children.find? (fun c => c.tag == "a:avLst") = some a := hf
    have htag : a.tag = "a:avLst" := by
      have := List.find?_some hfind
      simpa using this
    refine ⟨a.attrs, a.children.filter (fun c => !isGd c), ?_, ?_⟩
    · rw [rewrite_guides, hf, findChild]
      show (replaceFirst (fun c => c.tag == "a:avLst") (rewriteAvLst g) e.children).find? _ = _
      rw [find?_replaceFirst (fun c => c.tag == "a:avLst") (rewriteAvLst g)
          (fun x hx => by simpa [rewriteAvLst_tag] using hx) e.children a hfind]
      rw [rewriteAvLst, htag]
    · intro x hx
      have := List.mem_filter.mp hx
      simpa using this.2
  | none =>
    refine ⟨[], [], ?_, by simp⟩
    have hf' : e.children.find? (fun c => c.tag == "a:avLst") = none := hf
    rw [rewrite_guides, hf, findChild]
    show (e.children ++ [Elem.mk "a:avLst" [] (g.map serial_gd)]).find? _ = _
    rw [List.find?_append, hf']
    simp [Elem.tag]

lemma serial_gd_isGd (g : String × Int) : isGd (serial_gd g) = true := rfl

/-! ## C3: guide-list rewriting round trip -/

/-- C3: rewriting the guides with `g1` and then with `g2` leaves as guide
list exactly the serialization of `g2` — one `<a:gd>` per entry of `g2`, in
order, with its `name` and `fmla="val <value>"` attributes, and no residue of
`g1` — and when the geometry element has no children at all (hence no
guide-list container), the rewrite creates the container as its sole child. -/
theorem rewrite_guides_roundtrip (e : Elem) (g1 g2 : List (String × Int)) :
    gd_prop (rewrite_guides (rewrite_guides e g1) g2) = g2.map serial_gd ∧
    (e.children = [] →
      (rewrite_guides e g1).children = [Elem.mk "a:avLst" [] (g1.map serial_gd)]) := by
  constructor
  · obtain ⟨attrs, X, hfind, hX⟩ := rewrite_guides_state e g1
    have h2 : findChild "a:avLst" (rewrite_guides (rewrite_guides e g1) g2) =
        some (rewriteAvLst g2 (Elem.mk "a:avLst" attrs (X ++ g1.map serial_gd))) := by
      rw [rewrite_guides, hfind, findChild]
      exact find?_replaceFirst (fun c => c.tag == "a:avLst") (rewriteAvLst g2)
        (fun x hx => by simpa [rewriteAvLst_tag] using hx)
        (rewrite_guides e g1).children _ hfind
    have hA : ((X ++ g1.map serial_gd).filter (fun c => !isGd c)).filter isGd = [] := by
      rw [List.filter_eq_nil_iff]
      intro a ha
      have := (List.mem_filter.mp ha).2
      simp_all
    have hB : (g2.map serial_gd).filter isGd = g2.map serial_gd :=
      List.filter_eq_self.mpr (fun x hx => by
        obtain ⟨g, _, rfl⟩ := List.mem_map.mp hx
        rfl)
    rw [gd_prop, h2]
    show (((X ++ g1.map serial_gd).filter (fun c => !isGd c))
        ++ g2.map serial_gd).filter isGd = g2.map serial_gd
    rw [List.filter_append, hA, hB, List.nil_append]
  · intro hch
    have hf : findChild "a:avLst" e = none := by
      rw [findChild, hch]
      rfl
    rw [rewrite_guides, hf]
    show e.children ++ [Elem.mk "a:avLst" [] (g1.map serial_gd)] = _
    rw [hch, List.nil_append]

/-- Witness for C3 at a concrete childless geometry element and two concrete
guide lists. -/
theorem rewrite_guides_roundtrip_witness :
    gd_prop (rewrite_guides
        (rewrite_guides (Elem.mk "a:prstGeom" [("prst", "roundRect")] [])
          [("adj", 50000)])
        [("x", 1), ("y", 2)]) =
      [(("x", 1) : String × Int), ("y", 2)].map serial_gd ∧
    (rewrite_guides (Elem.mk "a:prstGeom" [("prst", "roundRect")] [])
        [(("adj", 50000) : String × Int)]).children =
      [Elem.mk "a:avLst" [] ([(("adj", 50000) : String × Int)].map serial_gd)] :=
  ⟨(rewrite_guides_roundtrip (Elem.mk "a:prstGeom" [("prst", "roundRect")] [])
      [("adj", 50000)] [("x", 1), ("y", 2)]).1,
   (rewrite_guides_roundtrip (Elem.mk "a:prstGeom" [("prst", "roundRect")] [])
      [("adj", 50000)] [("x", 1), ("y", 2)]).2 rfl⟩

/-! ## C8: absence as value -/

/-- C8: missing optional elements give sentinel absences, never failures:
with no `avLst` child the guides property is the empty sequence (it is a
pure function of the tree, so it has no side effect); with no solid-fill
child the solidFill property is `none`; and for a shape whose properties
block has no preset-geometry child, the prst property succeeds with the
absent sentinel. -/
theorem absence_as_value (g spPrE sp spPr0 : Elem) :
    ((∀ c ∈ g.children, c.tag ≠ "a:avLst") → gd_prop g = []) ∧
    ((∀ c ∈ spPrE.children, c.tag ≠ "a:solidFill") → solidFill_prop spPrE = none) ∧
    (findChild "p:spPr" sp = some spPr0 →
      (∀ c ∈ spPr0.children, c.tag ≠ "a:prstGeom") → shape_prst sp = some none) := by
  refine ⟨?_, ?_, ?_⟩
  · intro h
    have hf : findChild "a:avLst" g = none := by
      rw [findChild, List.find?_eq_none]
      intro x hx
      simp [h x hx]
    rw [gd_prop, hf]
  · intro h
    rw [solidFill_prop, findChild, List.find?_eq_none]
    intro x hx
    simp [h x hx]
  · intro h1 h
    have hf : findChild "a:prstGeom" spPr0 = none := by
      rw [findChild, List.find?_eq_none]
      intro x hx
      simp [h x hx]
    simp only [shape_prst, h1, hf]

/-- Witness for C8 at a guide-less geometry, a fill-less properties block
and a geometry-less shape. -/
theorem absence_as_value_witness :
    gd_prop (Elem.mk "a:prstGeom" [("prst", "rect")] []) = [] ∧
    solidFill_prop (Elem.mk "p:spPr" [] [Elem.mk "a:ln" [] []]) = none ∧
    shape_prst (Elem.mk "p:sp" [] [Elem.mk "p:spPr" [] []]) = some none :=
  ⟨(absence_as_value (Elem.mk "a:prstGeom" [("prst", "rect")] [])
      (Elem.mk "p:spPr" [] [Elem.mk "a:ln" [] []])
      (Elem.mk "p:sp" [] [Elem.mk "p:spPr" [] []]) (Elem.mk "p:spPr" [] [])).1
      (by decide),
   (absence_as_value (Elem.mk "a:prstGeom" [("prst", "rect")] [])
      (Elem.mk "p:spPr" [] [Elem.mk "a:ln" [] []])
      (Elem.mk "p:sp" [] [Elem.mk "p:spPr" [] []]) (Elem.mk "p:spPr" [] [])).2.1
      (by decide),
   (absence_as_value (Elem.mk "a:prstGeom" [("prst", "rect")] [])
      (Elem.mk "p:spPr" [] [Elem.mk "a:ln" [] []])
      (Elem.mk "p:sp" [] [Elem.mk "p:spPr" [] []]) (Elem.mk "p:spPr" [] [])).2.2
      rfl (by decide)⟩

/-! ## C5: shape classification -/

/-- C5: on a well-formed shape (the objectify accesses to `spPr`,
`nvSpPr` and `cNvSpPr` succeed), `is_autoshape` holds exactly when a
preset-geometry element is present and the shape is not a text box;
`is_textbox` holds exactly when the `txBox` attribute carries a true-like
value; and the two predicates are never both true — the flag wins. -/
theorem shape_classification (sp spPr0 nvSpPr0 cNvSpPr0 : Elem)
    (h1 : findChild "p:spPr" sp = some spPr0)
    (h2 : findChild "p:nvSpPr" sp = some nvSpPr0)
    (h3 : findChild "p:cNvSpPr" nvSpPr0 = some cNvSpPr0) :
    (is_autoshape sp = some true ↔
      ((findChild "a:prstGeom" spPr0).isSome ∧ is_textbox sp = some false)) ∧
    (is_textbox sp = some true ↔
      (getAttr "txBox" cNvSpPr0 = some "1" ∨ getAttr "txBox" cNvSpPr0 = some "true")) ∧
    ¬ (is_autoshape sp = some true ∧ is_textbox sp = some true) := by
  have ht : is_textbox sp = some ((getAttr "txBox" cNvSpPr0 == some "true") ||
      (getAttr "txBox" cNvSpPr0 == some "1")) := by
    simp only [is_textbox, h2, h3]
  cases hpg : findChild "a:prstGeom" spPr0 with
  | none =>
    have ha : is_autoshape sp = some false := by
      simp only [is_autoshape, h1, hpg]
    rw [ha, ht]
    refine ⟨by simp, ?_, by simp⟩
    simp only [Option.some.injEq, Bool.or_eq_true, beq_iff_eq]
    constructor
    · rintro (h | h) <;> simp [h]
    · rintro (h | h) <;> simp [h]
  | some pg =>
    have ha : is_autoshape sp = some (!((getAttr "txBox" cNvSpPr0 == some "true") ||
        (getAttr "txBox" cNvSpPr0 == some "1"))) := by
      simp only [is_autoshape, h1, hpg, h2, h3]
    rw [ha, ht]
    cases hx : ((getAttr "txBox" cNvSpPr0 == some "true") ||
        (getAttr "txBox" cNvSpPr0 == some "1")) with
    | true =>
      simp only [Bool.or_eq_true, beq_iff_eq] at hx
      refine ⟨by simp, ?_, by simp⟩
      simp only [Option.some.injEq]
      constructor
      · intro _; tauto
      · intro _; trivial
    | false =>
      simp only [Bool.or_eq_false_iff, beq_eq_false_iff_ne] at hx
      refine ⟨by simp, ?_, by simp⟩
      simp only [Option.some.injEq]
      constructor
      · intro h; cases h
      · rintro (h | h)
        · exact absurd h hx.2
        · exact absurd h hx.1

/-- Witness for C5 at a concrete shape carrying both a preset geometry and
the text-box flag: it classifies as text box, not autoshape. -/
theorem shape_classification_witness :
    (is_autoshape (Elem.mk "p:sp" []
        [Elem.mk "p:nvSpPr" [] [Elem.mk "p:cNvSpPr" [("txBox", "1")] []],
         Elem.mk "p:spPr" [] [Elem.mk "a:prstGeom" [("prst", "rect")] []]]) = some true ↔
      ((findChild "a:prstGeom"
          (Elem.mk "p:spPr" [] [Elem.mk "a:prstGeom" [("prst", "rect")] []])).isSome ∧
        is_textbox (Elem.mk "p:sp" []
          [Elem.mk "p:nvSpPr" [] [Elem.mk "p:cNvSpPr" [("txBox", "1")] []],
           Elem.mk "p:spPr" [] [Elem.mk "a:prstGeom" [("prst", "rect")] []]]) = some false)) ∧
    (is_textbox (Elem.mk "p:sp" []
        [Elem.mk "p:nvSpPr" [] [Elem.mk "p:cNvSpPr" [("txBox", "1")] []],
         Elem.mk "p:spPr" [] [Elem.mk "a:prstGeom" [("prst", "rect")] []]]) = some true ↔
      (getAttr "txBox" (Elem.mk "p:cNvSpPr" [("txBox", "1")] []) = some "1" ∨
        getAttr "txBox" (Elem.mk "p:cNvSpPr" [("txBox", "1")] []) = some "true")) ∧
    ¬ (is_autoshape (Elem.mk "p:sp" []
        [Elem.mk "p:nvSpPr" [] [Elem.mk "p:cNvSpPr" [("txBox", "1")] []],
         Elem.mk "p:spPr" [] [Elem.mk "a:prstGeom" [("prst", "rect")] []]]) = some true ∧
      is_textbox (Elem.mk "p:sp" []
        [Elem.mk "p:nvSpPr" [] [Elem.mk "p:cNvSpPr" [("txBox", "1")] []],
         Elem.mk "p:spPr" [] [Elem.mk "a:prstGeom" [("prst", "rect")] []]]) = some true) :=
  shape_classification
    (Elem.mk "p:sp" []
      [Elem.mk "p:nvSpPr" [] [Elem.mk "p:cNvSpPr" [("txBox", "1")] []],
       Elem.mk "p:spPr" [] [Elem.mk "a:prstGeom" [("prst", "rect")] []]])
    (Elem.mk "p:spPr" [] [Elem.mk "a:prstGeom" [("prst", "rect")] []])
    (Elem.mk "p:nvSpPr" [] [Elem.mk "p:cNvSpPr" [("txBox", "1")] []])
    (Elem.mk "p:cNvSpPr" [("txBox", "1")] [])
    rfl rfl rfl

/-! ## C10: exact string matching of the text-box flag -/

/-- C10: the text-box test matches the flag value exactly: on a well-formed
shape, `is_textbox` is true precisely when the `txBox` attribute is the
exact string "1" or "true"; an absent attribute yields false; and with any
other value (or no value) a shape carrying a preset geometry classifies as
an autoshape. -/
theorem is_textbox_exact_string_match (sp spPr0 nvSpPr0 cNvSpPr0 : Elem)
    (h1 : findChild "p:spPr" sp = some spPr0)
    (h2 : findChild "p:nvSpPr" sp = some nvSpPr0)
    (h3 : findChild "p:cNvSpPr" nvSpPr0 = some cNvSpPr0) :
    (∀ v, getAttr "txBox" cNvSpPr0 = some v →
      (is_textbox sp = some true ↔ (v = "1" ∨ v = "true"))) ∧
    (getAttr "txBox" cNvSpPr0 = none → is_textbox sp = some false) ∧
    ((getAttr "txBox" cNvSpPr0 = none ∨
        (∃ v, getAttr "txBox" cNvSpPr0 = some v ∧ v ≠ "1" ∧ v ≠ "true")) →
      (findChild "a:prstGeom" spPr0).isSome → is_autoshape sp = some true) := by
  refine ⟨?_, ?_, ?_⟩
  · intro v hv
    simp only [is_textbox, h2, h3, hv, Option.some.injEq, Bool.or_eq_true, beq_iff_eq]
    constructor
    · rintro (h | h)
      · exact Or.inr (by simpa using h)
      · exact Or.inl (by simpa using h)
    · rintro (h | h)
      · simp [h]
      · simp [h]
  · intro hv
    simp only [is_textbox, h2, h3, hv]
    rfl
  · rintro (hv | ⟨v, hv, hv1, hv2⟩) hpgs
    · obtain ⟨pg, hpg⟩ := Option.isSome_iff_exists.mp hpgs
      simp only [is_autoshape, h1, hpg, h2, h3, hv]
      rfl
    · obtain ⟨pg, hpg⟩ := Option.isSome_iff_exists.mp hpgs
      simp only [is_autoshape, h1, hpg, h2, h3, hv, Option.some.injEq]
      simp [hv1, hv2]

/-- Witness for C10 at a shape whose txBox attribute holds the non-matching
value "TRUE" and whose properties carry a preset geometry: the value does
not pass the exact-match test and the shape is an autoshape. -/
theorem is_textbox_exact_string_match_witness :
    (is_textbox (Elem.mk "p:sp" []
        [Elem.mk "p:nvSpPr" [] [Elem.mk "p:cNvSpPr" [("txBox", "TRUE")] []],
         Elem.mk "p:spPr" [] [Elem.mk "a:prstGeom" [("prst", "rect")] []]]) = some true ↔
      (("TRUE" : String) = "1" ∨ ("TRUE" : String) = "true")) ∧
    is_autoshape (Elem.mk "p:sp" []
        [Elem.mk "p:nvSpPr" [] [Elem.mk "p:cNvSpPr" [("txBox", "TRUE")] []],
         Elem.mk "p:spPr" [] [Elem.mk "a:prstGeom" [("prst", "rect")] []]]) = some true :=
  ⟨(is_textbox_exact_string_match
      (Elem.mk "p:sp" []
        [Elem.mk "p:nvSpPr" [] [Elem.mk "p:cNvSpPr" [("txBox", "TRUE")] []],
         Elem.mk "p:spPr" [] [Elem.mk "a:prstGeom" [("prst", "rect")] []]])
      (Elem.mk "p:spPr" [] [Elem.mk "a:prstGeom" [("prst", "rect")] []])
      (Elem.mk "p:nvSpPr" [] [Elem.mk "p:cNvSpPr" [("txBox", "TRUE")] []])
      (Elem.mk "p:cNvSpPr" [("txBox", "TRUE")] [])
      rfl rfl rfl).1 "TRUE" rfl,
   (is_textbox_exact_string_match
      (Elem.mk "p:sp" []
        [Elem.mk "p:nvSpPr" [] [Elem.mk "p:cNvSpPr" [("txBox", "TRUE")] []],
         Elem.mk "p:spPr" [] [Elem.mk "a:prstGeom" [("prst", "rect")] []]])
      (Elem.mk "p:spPr" [] [Elem.mk "a:prstGeom" [("prst", "rect")] []])
      (Elem.mk "p:nvSpPr" [] [Elem.mk "p:cNvSpPr" [("txBox", "TRUE")] []])
      (Elem.mk "p:cNvSpPr" [("txBox", "TRUE")] [])
      rfl rfl rfl).2.2
     (Or.inr ⟨"TRUE", rfl, by decide, by decide⟩) rfl⟩

/-! ## C6: sparse placeholder attributes -/

/-- C6: `new_placeholder_sp` emits placeholder-descriptor attributes only
when they differ from their defaults: with every argument at its default the
`p:ph` element has no attributes at all, and with only the type set to
title it has exactly the attribute `type="title"`. -/
theorem new_placeholder_sp_sparse_attrs (id_ : Nat) (name : String) :
    ph_of_sp (new_placeholder_sp id_ name PH_TYPE_OBJ PH_ORIENT_HORZ PH_SZ_FULL 0) =
      some (Elem.mk "p:ph" [] []) ∧
    ph_of_sp (new_placeholder_sp id_ name PH_TYPE_TITLE PH_ORIENT_HORZ PH_SZ_FULL 0) =
      some (Elem.mk "p:ph" [("type", PH_TYPE_TITLE)] []) :=
  ⟨rfl, rfl⟩

/-! ## C7: text body only for text-bearing placeholder types -/

/-- C7: the shape subtree built by `new_placeholder_sp` contains a text-body
child exactly when the placeholder type is one of title, centered title,
subtitle, body, object; every other placeholder type gets none. -/
theorem new_placeholder_sp_txBody_iff (id_ : Nat) (name ph_type orient sz : String)
    (idx : Nat) :
    (∃ c ∈ (new_placeholder_sp id_ name ph_type orient sz idx).children,
        c.tag = "p:txBody") ↔
      (ph_type = PH_TYPE_TITLE ∨ ph_type = PH_TYPE_CTRTITLE ∨
        ph_type = PH_TYPE_SUBTITLE ∨ ph_type = PH_TYPE_BODY ∨ ph_type = PH_TYPE_OBJ) := by
  by_cases h : phTypesWithTextFrame.contains ph_type = true
  · have hmem : ph_type ∈ phTypesWithTextFrame := by simpa [List.contains] using h
    constructor
    · intro _
      simpa [phTypesWithTextFrame] using hmem
    · intro _
      refine ⟨new_txBody, ?_, rfl⟩
      show new_txBody ∈ (Elem.mk "p:sp" [] _).children
      rw [Elem.children]
      refine List.mem_append_right _ ?_
      rw [if_pos h]
      exact List.mem_singleton.mpr rfl
  · have hmem : ph_type ∉ phTypesWithTextFrame := fun hc =>
      h (by simpa [List.contains] using hc)
    constructor
    · rintro ⟨c, hc, htag⟩
      rw [show (new_placeholder_sp id_ name ph_type orient sz idx).children =
          [Elem.mk "p:nvSpPr" []
            [Elem.mk "p:cNvPr" [("id", toString id_), ("name", name)] [],
             Elem.mk "p:cNvSpPr" [] [Elem.mk "a:spLocks" [("noGrp", "1")] []],
             Elem.mk "p:nvPr" [] [Elem.mk "p:ph" (ph_attrs ph_type orient sz idx) []]],
           Elem.mk "p:spPr" [] []]
          ++ (if phTypesWithTextFrame.contains ph_type then [new_txBody] else [])
          from rfl, if_neg h, List.append_nil] at hc
      rcases List.mem_cons.mp hc with h' | h'
      · subst h'
        simp [Elem.tag] at htag
      · rcases List.mem_cons.mp h' with h'' | h''
        · subst h''
          simp [Elem.tag] at htag
        · simp at h''
    · intro hd
      exact absurd (by simpa [phTypesWithTextFrame] using hd) hmem

/-! ## C9: placeholder lookup by index -/

lemma placeholders_get_no_match :
    ∀ (phs : List LayoutPlaceholder) (i : Nat) (d : Option LayoutPlaceholder),
      (∀ ph ∈ phs, ph.idx ≠ i) → placeholders_get phs i d = d
  | [], _, _, _ => rfl
  | a :: rest, i, d, h => by
    rw [placeholders_get, if_neg (h a (by simp))]
    exact placeholders_get_no_match rest i d (fun q hq => h q (by simp [hq]))

lemma placeholders_get_append_match :
    ∀ (xs : List LayoutPlaceholder) (p : LayoutPlaceholder) (ys : List LayoutPlaceholder)
      (i : Nat) (d : Option LayoutPlaceholder),
      p.idx = i → (∀ q ∈ xs, q.idx ≠ i) →
      placeholders_get (xs ++ p :: ys) i d = some p
  | [], p, ys, i, d, hp, _ => by
    rw [List.nil_append, placeholders_get, if_pos hp]
  | a :: xs, p, ys, i, d, hp, h => by
    rw [List.cons_append, placeholders_get, if_neg (h a (by simp))]
    exact placeholders_get_append_match xs p ys i d hp (fun q hq => h q (by simp [hq]))

/-- C9: `get` scans the collection in sequence order: when no placeholder
resolves to the requested index it returns the supplied default, and when
the collection splits as `xs ++ p :: ys` with `p` the first match, it
returns `p` — first match wins. -/
theorem placeholders_get_first_match_or_default (phs : List LayoutPlaceholder)
    (i : Nat) (d : Option LayoutPlaceholder) :
    ((∀ ph ∈ phs, ph.idx ≠ i) → placeholders_get phs i d = d) ∧
    (∀ xs p ys, phs = xs ++ p :: ys → p.idx = i → (∀ q ∈ xs, q.idx ≠ i) →
      placeholders_get phs i d = some p) :=
  ⟨fun h => placeholders_get_no_match phs i d h,
   fun xs p ys hsplit hp hxs =>
     hsplit ▸ placeholders_get_append_match xs p ys i d hp hxs⟩

/-- Witness for C9: a collection holding indices 0 and 1 returns the default
for the absent index 7, and first-match lookup finds the index-1 entry. -/
theorem placeholders_get_first_match_or_default_witness :
    placeholders_get [⟨some 0⟩, ⟨some 1⟩] 7 none = none ∧
    placeholders_get [⟨some 0⟩, ⟨some 1⟩] 1 none = some ⟨some 1⟩ :=
  ⟨(placeholders_get_first_match_or_default [⟨some 0⟩, ⟨some 1⟩] 7 none).1 (by decide),
   (placeholders_get_first_match_or_default [⟨some 0⟩, ⟨some 1⟩] 1 none).2
     [⟨some 0⟩] ⟨some 1⟩ [] rfl rfl (by decide)⟩
